import Mathlib

/-!
Shallow embedding of `src/observability/ebpf/trace_http.c`: the W3C
traceparent parsing helper `parse_traceparent`, the two BPF hash maps
(`active_requests`, `trace_contexts`), and the four probe entry points
(`trace_http_request_start`, `trace_http_request_end`,
`trace_function_entry`, `trace_function_exit`).

Machine integers are modelled as `Nat` with explicit `% 2^w` where the C
code can wrap (the `u64` duration subtraction, the `u16`/`u32` casts).
C strings are modelled as the list of their bytes up to the terminating
NUL; fixed-size `char` buffers are modelled as byte lists of exactly the
buffer length, NUL/zero padded, matching the zero-initialised structs in
the source.
-/

namespace TraceHttp

/-- `2^64`, the modulus of the C `__u64` type. -/
def W64 : Nat := 2 ^ 64

/-- `2^32`, the modulus of the C `__u32` type. -/
def W32 : Nat := 2 ^ 32

/-- `2^16`, the modulus of the C `__u16` type. -/
def W16 : Nat := 2 ^ 16

/-- `max_entries` of both BPF hash maps in the source (10240). -/
def MAX_ENTRIES : Nat := 10240

/-- `TRACEPARENT_LEN` from the source. -/
def TRACEPARENT_LEN : Nat := 55

/-- `MAX_PATH_LEN` from the source. -/
def MAX_PATH_LEN : Nat := 128

/-- `MAX_METHOD_LEN` from the source. -/
def MAX_METHOD_LEN : Nat := 16

/-- Unsigned 64-bit subtraction `a - b` with wraparound, as C computes
`ts - event->timestamp_ns` on `__u64` operands. -/
def sub64 (a b : Nat) : Nat := (a + W64 - b % W64) % W64

/-- The contents of an `n`-byte zero-initialised `char` buffer after a
`bpf_probe_read_*_str` of the string `l` into it: at most `n - 1` content
bytes are copied, the rest of the buffer stays zero (the copy
NUL-terminates and the struct was zero-initialised). -/
def fixBuf (n : Nat) (l : List Nat) : List Nat :=
  (l.take (n - 1) ++ List.replicate n 0).take n

/-- One `bpf_probe_read_*_str(dst, size, src + off)` call reading out of the
byte sequence `h`: copies bytes starting at offset `off`, stopping at a NUL
byte or after `size - 1` bytes.  The second component records whether the
copy dereferenced an offset at or beyond `h.length`, i.e. read past the end
of the input byte sequence. -/
def strCopy (h : List Nat) : Nat → Nat → List Nat × Bool
  | _, 0 => ([], false)
  | _, 1 => ([], false)
  | off, n + 2 =>
    match h.get? off with
    | none => ([], true)
    | some 0 => ([], false)
    | some b =>
      let r := strCopy h (off + 1) (n + 1)
      (b :: r.1, r.2)

/-- `struct trace_context` from the source: `__u8 trace_id[16]`,
`__u8 span_id[8]`, `__u8 flags`, modelled as byte lists of the buffer
lengths plus a byte. -/
structure trace_context where
  trace_id : List Nat
  span_id : List Nat
  flags : Nat
deriving DecidableEq

/-- A zero-initialised `struct trace_context` (`= {}` in the source). -/
def zero_context : trace_context :=
  ⟨List.replicate 16 0, List.replicate 8 0, 0⟩

/-- The observable outcome of one `parse_traceparent` call: the C return
value, the context the call leaves in `*ctx` (which the caller
zero-initialised), and whether any of its reads went past the end of the
input byte sequence. -/
structure parse_result where
  ret : Int
  ctx : trace_context
  oob : Bool
deriving DecidableEq

/-- Embeds `parse_traceparent` (src/observability/ebpf/trace_http.c,
lines 86-99).  `none` models a NULL `header` pointer.  The source performs
no length or format validation: it unconditionally string-copies from fixed
offsets 3 (into `trace_id[16]`, so at most 15 bytes) and 36 (into
`span_id[8]`, so at most 7 bytes), never touches `flags`, and returns 0 for
every non-NULL input. -/
def parse_traceparent (header : Option (List Nat)) : parse_result :=
  match header with
  | none => ⟨-1, zero_context, false⟩
  | some h =>
    let t := strCopy h 3 16
    let s := strCopy h 36 8
    ⟨0, ⟨fixBuf 16 t.1, fixBuf 8 s.1, 0⟩, t.2 || s.2⟩

/-- `struct http_event` from the source.  The three `char` buffers are
byte lists of length `MAX_METHOD_LEN` / `MAX_PATH_LEN` /
`TRACEPARENT_LEN`, NUL-padded. -/
structure http_event where
  timestamp_ns : Nat
  pid : Nat
  tid : Nat
  method : List Nat
  path : List Nat
  traceparent : List Nat
  status_code : Nat
  duration_ns : Nat
  content_length : Nat
deriving DecidableEq

/-- Modelled from the spec: lookup in a BPF hash map
(`bpf_map_lookup_elem`).  The kernel hash-map implementation is not part
of src/ (only the map declarations and call sites are); per spec section
4.2 the table is a keyed mapping, modelled as an association list with
distinct keys. -/
def mapLookup {α : Type} (m : List (Nat × α)) (k : Nat) : Option α :=
  match m with
  | [] => none
  | (k2, v) :: rest => if k2 = k then some v else mapLookup rest k

/-- Modelled from the spec: deleting a key from a BPF hash map
(`bpf_map_delete_elem`). -/
def mapDelete {α : Type} : List (Nat × α) → Nat → List (Nat × α)
  | [], _ => []
  | (k2, v2) :: rest, k =>
    if k2 = k then mapDelete rest k else (k2, v2) :: mapDelete rest k

/-- Overwrite the value stored under an existing key. -/
def mapReplace {α : Type} : List (Nat × α) → Nat → α → List (Nat × α)
  | [], _, _ => []
  | (k2, v2) :: rest, k, v =>
    if k2 = k then (k, v) :: mapReplace rest k v
    else (k2, v2) :: mapReplace rest k v

/-- Modelled from the spec: `bpf_map_update_elem(map, key, value, BPF_ANY)`
on a hash map with `max_entries = MAX_ENTRIES`.  An existing key is
overwritten unconditionally; a new key is added only while the map is below
capacity, otherwise the insert fails silently and the map is unchanged
(spec section 4.2: no eviction, the new observation is dropped). -/
def mapInsert {α : Type} (m : List (Nat × α)) (k : Nat) (v : α) : List (Nat × α) :=
  if (mapLookup m k).isSome then mapReplace m k v
  else if m.length < MAX_ENTRIES then (k, v) :: m
  else m

/-- Modelled from the spec: spec section 4.2's capacity policy together
with its capacity-exceeded counter ("the new start observation is dropped,
a counter is incremented").  The counter is not implemented anywhere in
src/; it is modelled here from the spec's words on top of the same insert
semantics as `mapInsert`. -/
def mapInsertCounted {α : Type} (m : List (Nat × α)) (counter : Nat) (k : Nat)
    (v : α) : List (Nat × α) × Nat :=
  if (mapLookup m k).isSome then (mapReplace m k v, counter)
  else if m.length < MAX_ENTRIES then ((k, v) :: m, counter)
  else (m, counter + 1)

/-- An insert under key `k` will be admitted: either `k` is already present
(overwrite) or the map is below capacity. -/
def canInsert {α : Type} (m : List (Nat × α)) (k : Nat) : Prop :=
  (mapLookup m k).isSome ∨ m.length < MAX_ENTRIES

/-- The whole observable state of the eBPF program: the two hash maps and
the sequence of events written to the `http_events` perf buffer (most
recent first).  The source declares no other mutable state — in particular
no counters of any kind. -/
structure engine_state where
  active_requests : List (Nat × http_event)
  trace_contexts : List (Nat × trace_context)
  emitted : List http_event
deriving DecidableEq

/-- The state before any probe has fired: both maps empty, nothing
emitted. -/
def init_state : engine_state := ⟨[], [], []⟩

/-- The `struct http_event event = {}` built by `trace_http_request_start`
(lines 107-124): start timestamp, pid/tid split of the 64-bit id, and the
three strings probe-read into their fixed buffers.  `none` for
`traceparent` models a NULL third parameter, which leaves the zero-filled
buffer untouched. -/
def mkStartEvent (id ts : Nat) (method path : List Nat)
    (traceparent : Option (List Nat)) : http_event :=
  { timestamp_ns := ts
    pid := id / W32
    tid := id % W32
    method := fixBuf MAX_METHOD_LEN method
    path := fixBuf MAX_PATH_LEN path
    traceparent :=
      match traceparent with
      | none => List.replicate TRACEPARENT_LEN 0
      | some h => fixBuf TRACEPARENT_LEN h
    status_code := 0
    duration_ns := 0
    content_length := 0 }

/-- Embeds `trace_http_request_start` (lines 103-136).  When the
traceparent pointer is non-NULL the source parses the (already truncated)
`event.traceparent` buffer and stores the resulting context in
`trace_contexts` unconditionally — the return value of `parse_traceparent`
is ignored.  Finally the event is upserted into `active_requests`. -/
def trace_http_request_start (id ts : Nat) (method path : List Nat)
    (traceparent : Option (List Nat)) (s : engine_state) : engine_state :=
  let event := mkStartEvent id ts method path traceparent
  let contexts :=
    match traceparent with
    | none => s.trace_contexts
    | some _ =>
      mapInsert s.trace_contexts id (parse_traceparent (some event.traceparent)).ctx
  { active_requests := mapInsert s.active_requests id event
    trace_contexts := contexts
    emitted := s.emitted }

/-- The `content_length` field after `trace_http_request_end`'s optional
`bpf_probe_read_kernel`: `none` models a NULL second parameter (field keeps
its stored value), `some v` reads the 32-bit value `v`. -/
def contentVal (cl : Option Nat) (stored : Nat) : Nat :=
  match cl with
  | none => stored
  | some v => v % W32

/-- Embeds `trace_http_request_end` (lines 140-170).  A missing
`active_requests` entry returns immediately: nothing is emitted and
neither map is touched.  On a hit the stored event is completed (wrapping
`u64` duration, `u16` status cast, optional `u32` content length), written
to the perf buffer, and both map entries for `id` are deleted. -/
def trace_http_request_end (id ts status : Nat) (cl : Option Nat)
    (s : engine_state) : engine_state :=
  match mapLookup s.active_requests id with
  | none => s
  | some event =>
    let event2 :=
      { event with
          duration_ns := sub64 ts event.timestamp_ns
          status_code := status % W16
          content_length := contentVal cl event.content_length }
    { active_requests := mapDelete s.active_requests id
      trace_contexts := mapDelete s.trace_contexts id
      emitted := event2 :: s.emitted }

/-- Embeds `trace_function_entry` (lines 174-189): stores a zero event
carrying only timestamp and pid/tid under `id` in `active_requests`. -/
def trace_function_entry (id ts : Nat) (s : engine_state) : engine_state :=
  let event : http_event :=
    { timestamp_ns := ts
      pid := id / W32
      tid := id % W32
      method := List.replicate MAX_METHOD_LEN 0
      path := List.replicate MAX_PATH_LEN 0
      traceparent := List.replicate TRACEPARENT_LEN 0
      status_code := 0
      duration_ns := 0
      content_length := 0 }
  { s with active_requests := mapInsert s.active_requests id event }

/-- Embeds `trace_function_exit` (lines 193-210).  Note that, unlike
`trace_http_request_end`, the source deletes only the `active_requests`
entry; `trace_contexts` is never touched here. -/
def trace_function_exit (id ts : Nat) (s : engine_state) : engine_state :=
  match mapLookup s.active_requests id with
  | none => s
  | some event =>
    { s with
        active_requests := mapDelete s.active_requests id
        emitted :=
          { event with duration_ns := sub64 ts event.timestamp_ns } :: s.emitted }

/-- The bytes of an ASCII string. -/
def asciiBytes (s : String) : List Nat := s.data.map Char.toNat

/-- The spec section 8 exemplar header
`00-4bf92f3577b34da6a3ce929d0e0e4736-00f067aa0ba902b7-01` (55 bytes). -/
def exampleHeader : List Nat :=
  asciiBytes "00-4bf92f3577b34da6a3ce929d0e0e4736-00f067aa0ba902b7-01"

/-- The same header with version field `ff`: well-formed layout, but a
version the spec says must be rejected with `UnsupportedVersion`. -/
def versionFFHeader : List Nat :=
  asciiBytes "ff-4bf92f3577b34da6a3ce929d0e0e4736-00f067aa0ba902b7-01"

/-- The 16 raw bytes the spec expects `traceId` to decode to for the
exemplar header (hex-decoding of the 32-character trace-id field). -/
def specTraceIdBytes : List Nat :=
  [0x4b, 0xf9, 0x2f, 0x35, 0x77, 0xb3, 0x4d, 0xa6,
   0xa3, 0xce, 0x92, 0x9d, 0x0e, 0x0e, 0x47, 0x36]

/-- The 8 raw bytes the spec expects `spanId` to decode to for the
exemplar header (hex-decoding of the 16-character span-id field). -/
def specSpanIdBytes : List Nat :=
  [0x00, 0xf0, 0x67, 0xaa, 0x0b, 0xa9, 0x02, 0xb7]

example : exampleHeader.length = 55 := by decide
example : (parse_traceparent (some [])).oob = true := by decide
example : (parse_traceparent (some [48])).oob = true := by decide
example :
    (parse_traceparent (some exampleHeader)).ctx.trace_id =
      asciiBytes "4bf92f3577b34da" ++ [0] := by decide
example :
    (parse_traceparent (some exampleHeader)).ctx.span_id =
      asciiBytes "00f067a" ++ [0] := by decide
example : (parse_traceparent (some exampleHeader)).ctx.flags = 0 := by decide
example : (parse_traceparent (some versionFFHeader)).ret = 0 := by decide

/-! ## Map lemmas -/

theorem mapLookup_mapReplace_self {α : Type} (m : List (Nat × α)) (k : Nat) (v : α)
    (h : (mapLookup m k).isSome) : mapLookup (mapReplace m k v) k = some v := by
  induction m with
  | nil => simp [mapLookup] at h
  | cons p rest ih =>
    obtain ⟨k2, v2⟩ := p
    by_cases hk : k2 = k
    · simp [mapReplace, hk, mapLookup]
    · have h' : (mapLookup rest k).isSome := by
        simpa [mapLookup, hk] using h
      simp [mapReplace, hk, mapLookup, ih h']

theorem mapLookup_mapInsert_self {α : Type} (m : List (Nat × α)) (k : Nat) (v : α)
    (h : canInsert m k) : mapLookup (mapInsert m k v) k = some v := by
  by_cases hp : (mapLookup m k).isSome
  · simp [mapInsert, hp, mapLookup_mapReplace_self m k v hp]
  · have hlen : m.length < MAX_ENTRIES := h.resolve_left hp
    simp [mapInsert, hp, hlen, mapLookup]

theorem mapLookup_mapDelete_self {α : Type} (m : List (Nat × α)) (k : Nat) :
    mapLookup (mapDelete m k) k = none := by
  induction m with
  | nil => rfl
  | cons p rest ih =>
    obtain ⟨k2, v2⟩ := p
    by_cases hk : k2 = k
    · simpa [mapDelete, hk] using ih
    · simp [mapDelete, hk, mapLookup, ih]

theorem mapLookup_eq_none_of_keys {α : Type} (m : List (Nat × α)) (k : Nat)
    (h : ∀ p ∈ m, p.1 ≠ k) : mapLookup m k = none := by
  induction m with
  | nil => rfl
  | cons p rest ih =>
    obtain ⟨k2, v2⟩ := p
    have hk : k2 ≠ k := h (k2, v2) (List.mem_cons_self _ _)
    simp only [mapLookup, if_neg hk]
    exact ih fun q hq => h q (List.mem_cons_of_mem _ hq)

theorem sub64_eq (a b : Nat) (hb : b ≤ a) (ha : a < W64) : sub64 a b = a - b := by
  have hbW : b % W64 = b := Nat.mod_eq_of_lt (lt_of_le_of_lt hb ha)
  unfold sub64
  rw [hbW]
  have h1 : a + W64 - b = (a - b) + W64 := by omega
  rw [h1, Nat.add_mod_right]
  exact Nat.mod_eq_of_lt (by omega)

/-! ## Correlation lemmas shared between claims -/

theorem start_emits_nothing (id ts : Nat) (m p : List Nat) (tp : Option (List Nat))
    (s : engine_state) :
    (trace_http_request_start id ts m p tp s).emitted = s.emitted := rfl

theorem start_active_lookup (id ts : Nat) (m p : List Nat) (tp : Option (List Nat))
    (s : engine_state) (h : canInsert s.active_requests id) :
    mapLookup (trace_http_request_start id ts m p tp s).active_requests id =
      some (mkStartEvent id ts m p tp) := by
  simp only [trace_http_request_start]
  exact mapLookup_mapInsert_self s.active_requests id (mkStartEvent id ts m p tp) h

theorem end_matched (id ts status : Nat) (cl : Option Nat) (s : engine_state)
    (ev : http_event) (h : mapLookup s.active_requests id = some ev) :
    trace_http_request_end id ts status cl s =
      { active_requests := mapDelete s.active_requests id
        trace_contexts := mapDelete s.trace_contexts id
        emitted :=
          { ev with
              duration_ns := sub64 ts ev.timestamp_ns
              status_code := status % W16
              content_length := contentVal cl ev.content_length } :: s.emitted } := by
  simp [trace_http_request_end, h]

theorem end_orphan (id ts status : Nat) (cl : Option Nat) (s : engine_state)
    (h : mapLookup s.active_requests id = none) :
    trace_http_request_end id ts status cl s = s := by
  simp [trace_http_request_end, h]

theorem exit_matched (id ts : Nat) (s : engine_state) (ev : http_event)
    (h : mapLookup s.active_requests id = some ev) :
    trace_function_exit id ts s =
      { s with
          active_requests := mapDelete s.active_requests id
          emitted := { ev with duration_ns := sub64 ts ev.timestamp_ns } :: s.emitted } := by
  simp [trace_function_exit, h]

theorem exit_orphan (id ts : Nat) (s : engine_state)
    (h : mapLookup s.active_requests id = none) :
    trace_function_exit id ts s = s := by
  simp [trace_function_exit, h]

/-! ## Concrete inputs used by witnesses and counterexamples -/

/-- Bytes of the string `GET`. -/
def mGET : List Nat := asciiBytes "GET"

/-- Bytes of the string `/v1/status`. -/
def pStatus : List Nat := asciiBytes "/v1/status"

/-! ## Claims -/

/-- C1: an `onStart(id, …)` immediately followed by `onEnd(id, …)` for the
same id emits exactly one completed event (the start emits nothing, the
end emits one), whose duration is `endTs - startTs` and whose
start-supplied fields — method, path, raw traceparent header (each
NUL-truncated into its 16/128/55-byte buffer), start timestamp and pid/tid
— are all preserved from the start observation. -/
theorem C1_start_end_emits_exactly_once (s : engine_state)
    (id ts1 ts2 status : Nat) (method path hdr : List Nat) (cl : Option Nat)
    (hcap : canInsert s.active_requests id) (hts : ts1 ≤ ts2) (hW : ts2 < W64) :
    (trace_http_request_start id ts1 method path (some hdr) s).emitted = s.emitted ∧
    ∃ e : http_event,
      (trace_http_request_end id ts2 status cl
          (trace_http_request_start id ts1 method path (some hdr) s)).emitted =
        e :: s.emitted ∧
      e.duration_ns = ts2 - ts1 ∧
      e.timestamp_ns = ts1 ∧
      e.pid = id / W32 ∧
      e.tid = id % W32 ∧
      e.method = fixBuf MAX_METHOD_LEN method ∧
      e.path = fixBuf MAX_PATH_LEN path ∧
      e.traceparent = fixBuf TRACEPARENT_LEN hdr ∧
      e.status_code = status % W16 := by
  have hlook := start_active_lookup id ts1 method path (some hdr) s hcap
  refine ⟨rfl,
    ⟨{ mkStartEvent id ts1 method path (some hdr) with
        duration_ns := sub64 ts2 ts1
        status_code := status % W16
        content_length := contentVal cl 0 }, ?_, ?_, rfl, rfl, rfl, rfl, rfl, rfl, rfl⟩⟩
  · rw [end_matched id ts2 status cl _ _ hlook]
    rfl
  · exact sub64_eq ts2 ts1 hts hW

/-- Witness for C1 at the spec section 8 example: id `0x1000000A`, start at
100, end at 250 with status 200 and content length 512. -/
theorem C1_witness :
    (trace_http_request_start 268435466 100 mGET pStatus (some exampleHeader)
        init_state).emitted = init_state.emitted ∧
    ∃ e : http_event,
      (trace_http_request_end 268435466 250 200 (some 512)
          (trace_http_request_start 268435466 100 mGET pStatus (some exampleHeader)
            init_state)).emitted = e :: init_state.emitted ∧
      e.duration_ns = 250 - 100 ∧
      e.timestamp_ns = 100 ∧
      e.pid = 268435466 / W32 ∧
      e.tid = 268435466 % W32 ∧
      e.method = fixBuf MAX_METHOD_LEN mGET ∧
      e.path = fixBuf MAX_PATH_LEN pStatus ∧
      e.traceparent = fixBuf TRACEPARENT_LEN exampleHeader ∧
      e.status_code = 200 % W16 :=
  C1_start_end_emits_exactly_once init_state 268435466 100 250 200 mGET pStatus
    exampleHeader (some 512) (Or.inr (by decide)) (by decide) (by decide)

/-- C10: the emitted event's `timestamp_ns` is the start observation's
timestamp, not the end's; the end timestamp enters the record only through
`duration_ns`, so `timestamp_ns + duration_ns` recovers the end time. -/
theorem C10_emitted_timestamp_is_start_time (s : engine_state)
    (id ts1 ts2 status : Nat) (method path hdr : List Nat) (cl : Option Nat)
    (hcap : canInsert s.active_requests id) (hts : ts1 ≤ ts2) (hW : ts2 < W64) :
    ∃ e : http_event,
      (trace_http_request_end id ts2 status cl
          (trace_http_request_start id ts1 method path (some hdr) s)).emitted =
        e :: s.emitted ∧
      e.timestamp_ns = ts1 ∧
      e.timestamp_ns + e.duration_ns = ts2 := by
  have hlook := start_active_lookup id ts1 method path (some hdr) s hcap
  refine ⟨{ mkStartEvent id ts1 method path (some hdr) with
      duration_ns := sub64 ts2 ts1
      status_code := status % W16
      content_length := contentVal cl 0 }, ?_, rfl, ?_⟩
  · rw [end_matched id ts2 status cl _ _ hlook]
    rfl
  · show ts1 + sub64 ts2 ts1 = ts2
    rw [sub64_eq ts2 ts1 hts hW]
    omega

/-- Witness for C10: start at 100, end at 250; the emitted record carries
timestamp 100 and 100 + duration = 250. -/
theorem C10_witness :
    ∃ e : http_event,
      (trace_http_request_end 268435466 250 200 (some 512)
          (trace_http_request_start 268435466 100 mGET pStatus (some exampleHeader)
            init_state)).emitted = e :: init_state.emitted ∧
      e.timestamp_ns = 100 ∧
      e.timestamp_ns + e.duration_ns = 250 :=
  C10_emitted_timestamp_is_start_time init_state 268435466 100 250 200 mGET pStatus
    exampleHeader (some 512) (Or.inr (by decide)) (by decide) (by decide)

/-- C8: a second `onStart` for the same id before any end unconditionally
replaces the pending entry (last writer wins), and the eventual `onEnd`
emits the event built from the second start's timestamp, method and path,
not the first's. -/
theorem C8_second_start_replaces_entry (s : engine_state)
    (id ts1 ts2 te status : Nat) (m1 p1 m2 p2 : List Nat)
    (tp1 tp2 : Option (List Nat)) (cl : Option Nat)
    (hcap : canInsert s.active_requests id) (hts : ts2 ≤ te) (hW : te < W64) :
    mapLookup
        (trace_http_request_start id ts2 m2 p2 tp2
          (trace_http_request_start id ts1 m1 p1 tp1 s)).active_requests id =
      some (mkStartEvent id ts2 m2 p2 tp2) ∧
    ∃ e : http_event,
      (trace_http_request_end id te status cl
          (trace_http_request_start id ts2 m2 p2 tp2
            (trace_http_request_start id ts1 m1 p1 tp1 s))).emitted =
        e :: s.emitted ∧
      e.timestamp_ns = ts2 ∧
      e.duration_ns = te - ts2 ∧
      e.method = fixBuf MAX_METHOD_LEN m2 ∧
      e.path = fixBuf MAX_PATH_LEN p2 := by
  have hcap1 : canInsert (trace_http_request_start id ts1 m1 p1 tp1 s).active_requests id :=
    Or.inl (by rw [start_active_lookup id ts1 m1 p1 tp1 s hcap]; rfl)
  have hlook := start_active_lookup id ts2 m2 p2 tp2
    (trace_http_request_start id ts1 m1 p1 tp1 s) hcap1
  refine ⟨hlook,
    ⟨{ mkStartEvent id ts2 m2 p2 tp2 with
        duration_ns := sub64 te ts2
        status_code := status % W16
        content_length := contentVal cl 0 }, ?_, rfl, ?_, rfl, rfl⟩⟩
  · rw [end_matched id te status cl _ _ hlook]
    rfl
  · exact sub64_eq te ts2 hts hW

/-- Witness for C8: two starts for id 7 (timestamps 10 then 20, methods
`GET` then `/v1/status`-pathed second request), then an end at 50: the
pending entry and the emitted event come from the second start. -/
theorem C8_witness :
    mapLookup
        (trace_http_request_start 7 20 mGET pStatus (some exampleHeader)
          (trace_http_request_start 7 10 mGET mGET none init_state)).active_requests 7 =
      some (mkStartEvent 7 20 mGET pStatus (some exampleHeader)) ∧
    ∃ e : http_event,
      (trace_http_request_end 7 50 200 none
          (trace_http_request_start 7 20 mGET pStatus (some exampleHeader)
            (trace_http_request_start 7 10 mGET mGET none init_state))).emitted =
        e :: init_state.emitted ∧
      e.timestamp_ns = 20 ∧
      e.duration_ns = 50 - 20 ∧
      e.method = fixBuf MAX_METHOD_LEN mGET ∧
      e.path = fixBuf MAX_PATH_LEN pStatus :=
  C8_second_start_replaces_entry init_state 7 10 20 50 200 mGET mGET mGET pStatus
    none (some exampleHeader) none (Or.inr (by decide)) (by decide) (by decide)

/-- C5 counterexample: after a start for id 1 whose header was stored in
`trace_contexts`, the generic exit for id 1 leaves the trace-context entry
in place — after this exit call the trace-context table still holds an
entry for the id, contrary to the claim that no table holds one. -/
theorem C5_counterexample_exit_keeps_context :
    mapLookup
        (trace_function_exit 1 20
          (trace_http_request_start 1 10 mGET pStatus (some exampleHeader)
            init_state)).trace_contexts 1 ≠ none := by decide

/-- C5 (amended): a matched `onEnd` removes both table entries for `id`;
the generic exit removes only the pending entry and never touches the
trace-context table (so a context entry for `id` may survive an exit); an
orphaned end or exit leaves the state entirely unchanged. -/
theorem C5_amended_cleanup_discipline (s : engine_state) (id ts status : Nat)
    (cl : Option Nat) (ev : http_event)
    (h : mapLookup s.active_requests id = some ev) :
    (mapLookup (trace_http_request_end id ts status cl s).active_requests id = none ∧
     mapLookup (trace_http_request_end id ts status cl s).trace_contexts id = none) ∧
    (mapLookup (trace_function_exit id ts s).active_requests id = none ∧
     (trace_function_exit id ts s).trace_contexts = s.trace_contexts) ∧
    (∀ s2 : engine_state, mapLookup s2.active_requests id = none →
      trace_http_request_end id ts status cl s2 = s2 ∧
      trace_function_exit id ts s2 = s2) := by
  refine ⟨⟨?_, ?_⟩, ⟨?_, ?_⟩,
    fun s2 h2 => ⟨end_orphan _ _ _ _ _ h2, exit_orphan _ _ _ h2⟩⟩
  · rw [end_matched id ts status cl s ev h]
    exact mapLookup_mapDelete_self _ _
  · rw [end_matched id ts status cl s ev h]
    exact mapLookup_mapDelete_self _ _
  · rw [exit_matched id ts s ev h]
    exact mapLookup_mapDelete_self _ _
  · rw [exit_matched id ts s ev h]

/-- Witness for C5 (amended) at a state holding an entry for id 1. -/
theorem C5_amended_witness :
    (mapLookup
        (trace_http_request_end 1 20 200 none
          (trace_http_request_start 1 10 mGET pStatus (some exampleHeader)
            init_state)).active_requests 1 = none ∧
     mapLookup
        (trace_http_request_end 1 20 200 none
          (trace_http_request_start 1 10 mGET pStatus (some exampleHeader)
            init_state)).trace_contexts 1 = none) ∧
    (mapLookup
        (trace_function_exit 1 20
          (trace_http_request_start 1 10 mGET pStatus (some exampleHeader)
            init_state)).active_requests 1 = none ∧
     (trace_function_exit 1 20
          (trace_http_request_start 1 10 mGET pStatus (some exampleHeader)
            init_state)).trace_contexts =
       (trace_http_request_start 1 10 mGET pStatus (some exampleHeader)
          init_state).trace_contexts) ∧
    (∀ s2 : engine_state, mapLookup s2.active_requests 1 = none →
      trace_http_request_end 1 20 200 none s2 = s2 ∧
      trace_function_exit 1 20 s2 = s2) :=
  C5_amended_cleanup_discipline
    (trace_http_request_start 1 10 mGET pStatus (some exampleHeader) init_state)
    1 20 200 none (mkStartEvent 1 10 mGET pStatus (some exampleHeader)) (by decide)

/-- C7: the code evaluated at the failing input.  An `onEnd` for id 7 with
no pending entry emits nothing and leaves the whole program state — the
two maps (including the unrelated entry for id 1) and the perf buffer —
unchanged; the state faithfully embeds every piece of mutable state the
source declares, and it contains no drop counter that could be
incremented. -/
theorem C7_orphaned_end_changes_nothing :
    trace_http_request_end 7 250 404 none
        (trace_http_request_start 1 10 mGET pStatus (some exampleHeader) init_state) =
      trace_http_request_start 1 10 mGET pStatus (some exampleHeader) init_state := by
  decide

/-- C2: the code evaluated at the failing inputs.  On the empty and on a
single-byte header, `parse_traceparent`'s first unchecked copy (fixed
offset 3, with no prior length or format validation) reads past the end of
the input byte sequence — the out-of-bounds read the claim says can never
occur. -/
theorem C2_parse_reads_out_of_bounds :
    (parse_traceparent (some [])).oob = true ∧
    (parse_traceparent (some [48])).oob = true := by decide

/-- C3: the code evaluated at the failing inputs.  `parse_traceparent`
returns 0 (success) both on a malformed two-byte header `zz` and on a
layout-correct header whose version field is `ff`; it has no
`MalformedHeader` or `UnsupportedVersion` outcome at all — its only
non-zero return is for NULL pointers. -/
theorem C3_parse_reports_success_on_bad_input :
    (parse_traceparent (some (asciiBytes "zz"))).ret = 0 ∧
    (parse_traceparent (some versionFFHeader)).ret = 0 ∧
    (parse_traceparent none).ret = -1 := by decide

/-- C4: the code evaluated at the failing input.  On the spec's exemplar
header the stored `trace_id` is the first 15 ASCII characters of the hex
field (NUL-truncated), not the 16 raw decoded bytes; `span_id` is likewise
7 ASCII characters; and `flags` is left 0, not the decoded `0x01`. -/
theorem C4_parse_keeps_ascii_hex :
    (parse_traceparent (some exampleHeader)).ctx.trace_id =
      asciiBytes "4bf92f3577b34da" ++ [0] ∧
    (parse_traceparent (some exampleHeader)).ctx.trace_id ≠ specTraceIdBytes ∧
    (parse_traceparent (some exampleHeader)).ctx.span_id =
      asciiBytes "00f067a" ++ [0] ∧
    (parse_traceparent (some exampleHeader)).ctx.span_id ≠ specSpanIdBytes ∧
    (parse_traceparent (some exampleHeader)).ctx.flags = 0 := by decide

/-- C6: the code evaluated at the failing input.  `onStart` with a
non-NULL but empty header stores a context for the id — and the stored
value is exactly the zero-filled placeholder — although the claim says an
empty or undecodable header must leave the context table without an entry
and that a stored context is never zero-filled. -/
theorem C6_empty_header_stores_zero_context :
    mapLookup
        (trace_http_request_start 1 0 mGET pStatus (some []) init_state).trace_contexts
        1 = some zero_context := by decide

/-- C9: inserting a new identifier into a table already holding
`MAX_ENTRIES` entries leaves the table exactly as it was (no corruption,
no eviction, the new observation is dropped) and increments the
capacity-exceeded counter exactly once.  Stated over the table model
`mapInsertCounted`, modelled from spec section 4.2. -/
theorem C9_insert_at_capacity_drops_and_counts {α : Type} (m : List (Nat × α))
    (counter k : Nat) (v : α) (hfull : m.length = MAX_ENTRIES)
    (hnew : mapLookup m k = none) :
    (mapInsertCounted m counter k v).1 = m ∧
    (mapInsertCounted m counter k v).2 = counter + 1 := by
  have h1 : (mapLookup m k).isSome = false := by rw [hnew]; rfl
  have h2 : ¬ m.length < MAX_ENTRIES := by omega
  simp [mapInsertCounted, h1, h2]

/-- A table at capacity: `MAX_ENTRIES` entries keyed 0 … 10239. -/
def fullTable : List (Nat × Nat) := (List.range MAX_ENTRIES).map (fun i => (i, 0))

theorem fullTable_length : fullTable.length = MAX_ENTRIES := by
  simp [fullTable]

theorem fullTable_lookup_max : mapLookup fullTable MAX_ENTRIES = none := by
  apply mapLookup_eq_none_of_keys
  intro p hp
  simp only [fullTable, List.mem_map, List.mem_range] at hp
  obtain ⟨i, hi, rfl⟩ := hp
  exact Nat.ne_of_lt hi

/-- Witness for C9 at a concrete full table and the fresh key 10240. -/
theorem C9_witness :
    (mapInsertCounted fullTable 0 MAX_ENTRIES (0 : Nat)).1 = fullTable ∧
    (mapInsertCounted fullTable 0 MAX_ENTRIES (0 : Nat)).2 = 0 + 1 :=
  C9_insert_at_capacity_drops_and_counts fullTable 0 MAX_ENTRIES 0
    fullTable_length fullTable_lookup_max

end TraceHttp
